import Mathlib

/-!
Shallow embedding of the OpenTitan manufacturing provisioning library
(`sw/device/silicon_creator/manuf/lib/provisioning.c`).

Each C routine is modelled as a Lean function over an explicit environment
that supplies the outcome of every external collaborator call (entropy
source, flash controller, OTP controller, lifecycle controller).  A routine
returns the list of external calls it performed (its event trace, recorded
whether or not the call succeeded) together with its `status_t` result,
modelled as `Except Err Unit`.  Machine words are `Nat` with explicit
`UINT32_MAX` / `UINT64_MAX` comparisons, exactly as the C code compares them.
-/

/-- Status error values: `INTERNAL()` from this module, or an error code
propagated from a collaborator call via `TRY`. -/
inductive Err where
  | internal : Err
  | external : Nat → Err
  deriving DecidableEq, Repr

/-- One external collaborator call made by the provisioning code.  The
`otpWrite64` event records which share slot (0 for the share-0 offset, 1 for
the share-1 offset) and the 64-bit words written. -/
inductive Event where
  | lcCheck : Event
  | otpLockQuery : Event
  | entropyComplexInit : Event
  | csrngInstantiate : Event
  | csrngGenerate : Nat → Event
  | csrngReseed : Event
  | csrngUninstantiate : Event
  | flashSetup : Nat → Nat → Nat → Event
  | flashEraseWrite : List Nat → Event
  | flashRead : Nat → Event
  | otpWrite64 : Nat → List Nat → Event
  | otpLock : Event
  deriving DecidableEq, Repr

/-- Largest 64-bit word value, `UINT64_MAX` in the C code. -/
def UINT64_MAX : Nat := 2 ^ 64 - 1

/-- Largest 32-bit word value, `UINT32_MAX` in the C code. -/
def UINT32_MAX : Nat := 2 ^ 32 - 1

/-- From provisioning.c line 26: `kCreatorSeedSizeInBytes = 32`. -/
def kCreatorSeedSizeInBytes : Nat := 32

/-- From provisioning.c line 27: seed size in 32-bit words (32 / 4 = 8); this
is also the capacity of the local `seed` and `seed_result` buffers in
`flash_ctrl_secret_write`. -/
def kCreatorSeedSizeInWords : Nat := kCreatorSeedSizeInBytes / 4

/-- From provisioning.c line 28: the owner seed has the creator seed's size. -/
def kOwnerSeedSizeInWords : Nat := kCreatorSeedSizeInWords

/-- From provisioning.c line 31. -/
def kFlashInfoPartitionId : Nat := 0

/-- From provisioning.c line 35. -/
def kFlashInfoBankId : Nat := 0

/-- From provisioning.c line 38. -/
def kFlashInfoPageIdCreatorSecret : Nat := 1

/-- From provisioning.c line 41. -/
def kFlashInfoPageIdOwnerSecret : Nat := 2

/-- Modelled from the spec: `OTP_CTRL_PARAM_CREATOR_ROOT_KEY_SHARE0_SIZE`,
the byte size of one root key share, comes from the generated header
`otp_ctrl_regs.h`, which is not part of this repository slice.  The spec
fixes only that the share buffer is evenly divisible into 64-bit words; the
reference value is 32 bytes.  No claim below depends on the numeric value. -/
def kRootKeyShareSizeInBytes : Nat := 32

/-- From provisioning.c line 19: share size in 32-bit words. -/
def kRootKeyShareSizeIn32BitWords : Nat := kRootKeyShareSizeInBytes / 4

/-- From provisioning.c line 20: share size in 64-bit words. -/
def kRootKeyShareSizeIn64BitWords : Nat := kRootKeyShareSizeInBytes / 8

/-- Embedding of `shares_check` (provisioning.c lines 59-67).  The loop body
accumulates, for each `i < len`:
`share0[i] == share1[i]`, then `share0[i] == UINT64_MAX || share0[i] == 0`,
then `share1[i] == UINT64_MAX || share1[0] == 0` (note: the index of the
zero test on `share1` is `0`, as written in the C source).  Out-of-range
reads do not occur in the callers; `getD` with default `0` stands for the
in-bounds accesses. -/
def shares_check (share0 share1 : List Nat) (len : Nat) : Except Err Unit :=
  if (List.range len).any (fun i =>
      (share0.getD i 0 == share1.getD i 0) ||
      ((share0.getD i 0 == UINT64_MAX) || (share0.getD i 0 == 0)) ||
      ((share1.getD i 0 == UINT64_MAX) || (share1.getD 0 0 == 0)))
  then Except.error Err.internal else Except.ok ()

/-- Record one external call (the event is emitted whether or not the call
succeeds); on success continue with the collaborator's result, on failure
propagate the error, as `TRY` does. -/
def runStep {α β : Type} (ev : Event) (res : Except Err α)
    (k : α → List Event × Except Err β) : List Event × Except Err β :=
  match res with
  | Except.error e => ([ev], Except.error e)
  | Except.ok a => ((k a).1.cons ev, (k a).2)

/-- Sequence a sub-routine that already produced a trace, as `TRY` on a call
to another routine of this module. -/
def bindTrace {α β : Type} (m : List Event × Except Err α)
    (k : α → List Event × Except Err β) : List Event × Except Err β :=
  match m with
  | (tr, Except.error e) => (tr, Except.error e)
  | (tr, Except.ok a) => (tr ++ (k a).1, (k a).2)

/-- Outcomes of the external calls made by one run of
`flash_ctrl_secret_write`: the entropy instantiate / generate (with the
words drawn) / uninstantiate results, the scrambled-region setup result
(with the page base address), the erase-and-program result, and the
read-back result (with the words read). -/
structure FlashWriteEnv where
  instantiateRes : Except Err Unit
  generateRes : Except Err (List Nat)
  uninstantiateRes : Except Err Unit
  setupRes : Except Err Nat
  eraseWriteRes : Except Err Unit
  readRes : Except Err (List Nat)

/-- Embedding of `flash_ctrl_secret_write` (provisioning.c lines 99-127):
instantiate entropy, draw `len` 32-bit words, uninstantiate, set up the
scrambled info region, erase-and-program the drawn words, read them back,
then fail with `INTERNAL()` iff some drawn word is `0` or `UINT32_MAX` or
differs from the word read back. -/
def flash_ctrl_secret_write (env : FlashWriteEnv)
    (page_id bank_id partition_id len : Nat) : List Event × Except Err Unit :=
  runStep Event.csrngInstantiate env.instantiateRes fun _ =>
  runStep (Event.csrngGenerate len) env.generateRes fun seed =>
  runStep Event.csrngUninstantiate env.uninstantiateRes fun _ =>
  runStep (Event.flashSetup page_id bank_id partition_id) env.setupRes fun _ =>
  runStep (Event.flashEraseWrite seed) env.eraseWriteRes fun _ =>
  runStep (Event.flashRead len) env.readRes fun seed_result =>
  ([], if (List.range len).any (fun i =>
        (seed.getD i 0 == 0) || (seed.getD i 0 == UINT32_MAX) ||
        (seed.getD i 0 != seed_result.getD i 0))
      then Except.error Err.internal else Except.ok ())

/-- Embedding of `flash_ctrl_creator_secret_write` (provisioning.c lines
141-147). -/
def flash_ctrl_creator_secret_write (env : FlashWriteEnv) :
    List Event × Except Err Unit :=
  bindTrace (flash_ctrl_secret_write env kFlashInfoPageIdCreatorSecret
    kFlashInfoBankId kFlashInfoPartitionId kCreatorSeedSizeInWords) fun _ =>
  ([], Except.ok ())

/-- Embedding of `flash_ctrl_owner_secret_write` (provisioning.c lines
163-169). -/
def flash_ctrl_owner_secret_write (env : FlashWriteEnv) :
    List Event × Except Err Unit :=
  bindTrace (flash_ctrl_secret_write env kFlashInfoPageIdOwnerSecret
    kFlashInfoBankId kFlashInfoPartitionId kOwnerSeedSizeInWords) fun _ =>
  ([], Except.ok ())

/-- Outcomes of the external calls made by one run of
`otp_partition_secret2_configure`: the two generate results carry the drawn
shares viewed as 64-bit words (the C code draws 32-bit words into a
`uint64_t` buffer and checks it word-wise as 64-bit words). -/
structure ConfigureEnv where
  instantiateRes : Except Err Unit
  generate0Res : Except Err (List Nat)
  reseedRes : Except Err Unit
  generate1Res : Except Err (List Nat)
  uninstantiateRes : Except Err Unit
  write0Res : Except Err Unit
  write1Res : Except Err Unit
  lockRes : Except Err Unit

/-- Embedding of `otp_partition_secret2_configure` (provisioning.c lines
184-214): instantiate, draw `share0`, reseed the same instance, draw
`share1`, uninstantiate, validate the shares, write `share0` then `share1`
to the SECRET2 partition, re-validate, and lock the partition. -/
def otp_partition_secret2_configure (env : ConfigureEnv) :
    List Event × Except Err Unit :=
  runStep Event.csrngInstantiate env.instantiateRes fun _ =>
  runStep (Event.csrngGenerate kRootKeyShareSizeIn32BitWords) env.generate0Res
    fun share0 =>
  runStep Event.csrngReseed env.reseedRes fun _ =>
  runStep (Event.csrngGenerate kRootKeyShareSizeIn32BitWords) env.generate1Res
    fun share1 =>
  runStep Event.csrngUninstantiate env.uninstantiateRes fun _ =>
  match shares_check share0 share1 kRootKeyShareSizeIn64BitWords with
  | Except.error e => ([], Except.error e)
  | Except.ok _ =>
    runStep (Event.otpWrite64 0 share0) env.write0Res fun _ =>
    runStep (Event.otpWrite64 1 share1) env.write1Res fun _ =>
    match shares_check share0 share1 kRootKeyShareSizeIn64BitWords with
    | Except.error e => ([], Except.error e)
    | Except.ok _ =>
      runStep Event.otpLock env.lockRes fun _ =>
      ([], Except.ok ())

/-- Embedding of `otp_partition_secret2_is_locked` (provisioning.c lines
77-82): query the SECRET2 digest-computed flag. -/
def otp_partition_secret2_is_locked (q : Except Err Bool) :
    List Event × Except Err Bool :=
  runStep Event.otpLockQuery q fun b => ([], Except.ok b)

/-- Outcomes of the external calls made by one run of
`provisioning_device_secrets_start`. -/
structure StartEnv where
  lcCheckRes : Except Err Unit
  isLockedRes : Except Err Bool
  entropyInitRes : Except Err Unit
  creatorEnv : FlashWriteEnv
  ownerEnv : FlashWriteEnv
  configEnv : ConfigureEnv

/-- Embedding of `provisioning_device_secrets_start` (provisioning.c lines
216-238): lifecycle check, SECRET2 lock query with early success when
already locked, entropy complex init, creator secret write, owner secret
write, SECRET2 configuration. -/
def provisioning_device_secrets_start (env : StartEnv) :
    List Event × Except Err Unit :=
  runStep Event.lcCheck env.lcCheckRes fun _ =>
  bindTrace (otp_partition_secret2_is_locked env.isLockedRes) fun is_locked =>
  if is_locked then ([], Except.ok ())
  else
    runStep Event.entropyComplexInit env.entropyInitRes fun _ =>
    bindTrace (flash_ctrl_creator_secret_write env.creatorEnv) fun _ =>
    bindTrace (flash_ctrl_owner_secret_write env.ownerEnv) fun _ =>
    bindTrace (otp_partition_secret2_configure env.configEnv) fun _ =>
    ([], Except.ok ())

/-- Embedding of `provisioning_device_secrets_end` (provisioning.c lines
240-244): query the lock state, propagate a query error, and otherwise
succeed iff the partition is locked. -/
def provisioning_device_secrets_end (q : Except Err Bool) :
    List Event × Except Err Unit :=
  bindTrace (otp_partition_secret2_is_locked q) fun is_locked =>
  ([], if is_locked then Except.ok () else Except.error Err.internal)

/-- True exactly on the entropy-subsystem calls among the events. -/
def entropyEvent : Event → Bool
  | Event.entropyComplexInit => true
  | Event.csrngInstantiate => true
  | Event.csrngGenerate _ => true
  | Event.csrngReseed => true
  | Event.csrngUninstantiate => true
  | _ => false

/-- Indices accessed in the local `seed` and `seed_result` buffers of
`flash_ctrl_secret_write` for parameter `len` (the entropy draw, the
program call, the read-back and the final compare loop all touch exactly
the indices below `len`) all lie below capacity `cap`. -/
def indicesInBounds (len cap : Nat) : Prop := ∀ i, i < len → i < cap

/-- Concrete flash-write environment in which every collaborator call
succeeds and the read-back matches the drawn words. -/
def flashEnvGood : FlashWriteEnv :=
  { instantiateRes := Except.ok ()
    generateRes := Except.ok [11, 12, 13, 14, 15, 16, 17, 18]
    uninstantiateRes := Except.ok ()
    setupRes := Except.ok 0
    eraseWriteRes := Except.ok ()
    readRes := Except.ok [11, 12, 13, 14, 15, 16, 17, 18] }

/-- Concrete flash-write environment in which every collaborator call
succeeds but the first drawn word is `0`, so the final check fails. -/
def flashEnvBad : FlashWriteEnv :=
  { instantiateRes := Except.ok ()
    generateRes := Except.ok [0, 12, 13, 14, 15, 16, 17, 18]
    uninstantiateRes := Except.ok ()
    setupRes := Except.ok 0
    eraseWriteRes := Except.ok ()
    readRes := Except.ok [0, 12, 13, 14, 15, 16, 17, 18] }

/-- Concrete configurator environment in which every collaborator call
succeeds and the drawn shares pass `shares_check`. -/
def cfgEnvGood : ConfigureEnv :=
  { instantiateRes := Except.ok ()
    generate0Res := Except.ok [1, 2, 3, 4]
    reseedRes := Except.ok ()
    generate1Res := Except.ok [5, 6, 7, 8]
    uninstantiateRes := Except.ok ()
    write0Res := Except.ok ()
    write1Res := Except.ok ()
    lockRes := Except.ok () }

/-- Concrete configurator environment in which both drawn shares are equal,
so `shares_check` fails. -/
def cfgEnvBad : ConfigureEnv :=
  { instantiateRes := Except.ok ()
    generate0Res := Except.ok [1, 2, 3, 4]
    reseedRes := Except.ok ()
    generate1Res := Except.ok [1, 2, 3, 4]
    uninstantiateRes := Except.ok ()
    write0Res := Except.ok ()
    write1Res := Except.ok ()
    lockRes := Except.ok () }

/-- Concrete orchestrator environment in which the SECRET2 partition is
already locked. -/
def startEnvLocked : StartEnv :=
  { lcCheckRes := Except.ok ()
    isLockedRes := Except.ok true
    entropyInitRes := Except.ok ()
    creatorEnv := flashEnvGood
    ownerEnv := flashEnvGood
    configEnv := cfgEnvGood }

/-- Concrete orchestrator environment in which the lifecycle check fails. -/
def startEnvLcFail : StartEnv :=
  { lcCheckRes := Except.error (Err.external 7)
    isLockedRes := Except.ok false
    entropyInitRes := Except.ok ()
    creatorEnv := flashEnvGood
    ownerEnv := flashEnvGood
    configEnv := cfgEnvGood }

/-- The error condition exactly as claim C1 words it: some index `i` has
`shareA[i] = shareB[i]`, or `shareA[i]` is `0` or all-ones, or `shareB[0]`
is `0` or all-ones (both tests on the second share fixed at index `0`).
Written from the claim's words, for comparison with `shares_check`. -/
def sharesCheckErrorSpecC1 (shareA shareB : List Nat) (len : Nat) : Prop :=
  ∃ i ∈ List.range len,
    (shareA.getD i 0 = shareB.getD i 0 ∨
     shareA.getD i 0 = 0 ∨ shareA.getD i 0 = UINT64_MAX ∨
     shareB.getD 0 0 = 0 ∨ shareB.getD 0 0 = UINT64_MAX)

/-- The spec's corrected symmetric success rule: every word pair differs and
no word of either share is `0` or all-ones.  Written from the spec's words,
for comparison with `shares_check`. -/
def sharesCheckSymmetricOk (shareA shareB : List Nat) (len : Nat) : Prop :=
  ∀ i ∈ List.range len,
    shareA.getD i 0 ≠ shareB.getD i 0 ∧
    shareA.getD i 0 ≠ 0 ∧ shareA.getD i 0 ≠ UINT64_MAX ∧
    shareB.getD i 0 ≠ 0 ∧ shareB.getD i 0 ≠ UINT64_MAX

lemma shares_check_error_iff_any (share0 share1 : List Nat) (len : Nat) :
    shares_check share0 share1 len = Except.error Err.internal ↔
    ((List.range len).any (fun i =>
      (share0.getD i 0 == share1.getD i 0) ||
      ((share0.getD i 0 == UINT64_MAX) || (share0.getD i 0 == 0)) ||
      ((share1.getD i 0 == UINT64_MAX) || (share1.getD 0 0 == 0)))) = true := by
  unfold shares_check
  split <;> rename_i h
  · exact iff_of_true rfl h
  · exact iff_of_false (by simp) h

/-- Claim C1, counterexample: with `shareA = [1, 2]` and
`shareB = [3, UINT64_MAX]`, the reference `shares_check` flags an error
(because `shareB[1]` is all-ones, a per-index test), while the claim's
predicate — which fixes index 0 for both tests on the second share — does
not flag this input. -/
theorem shares_check_claimC1_counterexample :
    shares_check [1, 2] [3, UINT64_MAX] 2 = Except.error Err.internal ∧
    ¬ sharesCheckErrorSpecC1 [1, 2] [3, UINT64_MAX] 2 := by
  constructor
  · rfl
  · unfold sharesCheckErrorSpecC1
    decide

/-- Claim C1, amended: `shares_check` flags an error exactly when some index
`i < len` has `shareA[i] = shareB[i]`, or `shareA[i]` is `0` or all-ones, or
`shareB[i]` is all-ones, or `shareB[0]` is `0` — on the second share only
the zero test is fixed at index 0; the all-ones test is per-index. -/
theorem shares_check_error_iff (shareA shareB : List Nat) (len : Nat) :
    shares_check shareA shareB len = Except.error Err.internal ↔
    ∃ i ∈ List.range len,
      (shareA.getD i 0 = shareB.getD i 0 ∨
       shareA.getD i 0 = 0 ∨ shareA.getD i 0 = UINT64_MAX ∨
       shareB.getD i 0 = UINT64_MAX ∨ shareB.getD 0 0 = 0) := by
  rw [shares_check_error_iff_any, List.any_eq_true]
  refine exists_congr fun i => and_congr_right fun _ => ?_
  simp only [Bool.or_eq_true, beq_iff_eq]
  tauto

/-- Claim C2: the code contradicts the symmetric validation rule (which its
own doc comment and the spec state as the intent).  With `share0 = [1, 2]`
and `share1 = [3, 0]`, the word `share1[1] = 0` should be rejected, but
`shares_check` returns OK because its zero test on the second share reads
index 0 instead of index `i`. -/
theorem shares_check_symmetric_rule_violated :
    shares_check [1, 2] [3, 0] 2 = Except.ok () ∧
    ¬ sharesCheckSymmetricOk [1, 2] [3, 0] 2 := by
  constructor
  · rfl
  · unfold sharesCheckSymmetricOk
    decide

lemma flash_final_check_ok_iff (seed res : List Nat) (len : Nat) :
    ((if (List.range len).any (fun i =>
        (seed.getD i 0 == 0) || (seed.getD i 0 == UINT32_MAX) ||
        (seed.getD i 0 != res.getD i 0))
      then Except.error Err.internal else Except.ok ()) = (Except.ok () : Except Err Unit)) ↔
    ∀ i ∈ List.range len,
      seed.getD i 0 ≠ 0 ∧ seed.getD i 0 ≠ UINT32_MAX ∧
      seed.getD i 0 = res.getD i 0 := by
  split <;> rename_i h
  · refine iff_of_false (by simp) ?_
    simp only [List.any_eq_true, Bool.or_eq_true, beq_iff_eq, bne_iff_ne] at h
    obtain ⟨i, hi, hbad⟩ := h
    intro hall
    obtain ⟨a, b, c⟩ := hall i hi
    tauto
  · refine iff_of_true rfl ?_
    simp only [List.any_eq_true, Bool.or_eq_true, beq_iff_eq, bne_iff_ne] at h
    push_neg at h
    intro i hi
    have := h i hi
    tauto

/-- Claim C3: when every collaborator call of `flash_ctrl_secret_write`
succeeds, the call returns OK iff every drawn word is neither `0` nor
all-ones and the read-back word at every index below `len` equals the drawn
word there; a single failing word at any index fails the whole call. -/
theorem flash_secret_write_ok_iff (env : FlashWriteEnv)
    (p b pt len addr : Nat) (seed res : List Nat)
    (h1 : env.instantiateRes = Except.ok ())
    (h2 : env.generateRes = Except.ok seed)
    (h3 : env.uninstantiateRes = Except.ok ())
    (h4 : env.setupRes = Except.ok addr)
    (h5 : env.eraseWriteRes = Except.ok ())
    (h6 : env.readRes = Except.ok res)
    (hs : seed.length = len) (hr : res.length = len) :
    (flash_ctrl_secret_write env p b pt len).2 = Except.ok () ↔
    ∀ i ∈ List.range len,
      seed.getD i 0 ≠ 0 ∧ seed.getD i 0 ≠ UINT32_MAX ∧
      seed.getD i 0 = res.getD i 0 := by
  unfold flash_ctrl_secret_write
  rw [h1, h2, h3, h4, h5, h6]
  simp only [runStep]
  exact flash_final_check_ok_iff seed res len

/-- Claim C3 witness: a concrete successful run of the secret writer. -/
theorem flash_secret_write_ok_iff_witness :
    (flash_ctrl_secret_write flashEnvGood kFlashInfoPageIdCreatorSecret
      kFlashInfoBankId kFlashInfoPartitionId kCreatorSeedSizeInWords).2 =
      Except.ok () :=
  (flash_secret_write_ok_iff flashEnvGood kFlashInfoPageIdCreatorSecret
    kFlashInfoBankId kFlashInfoPartitionId kCreatorSeedSizeInWords 0
    [11, 12, 13, 14, 15, 16, 17, 18] [11, 12, 13, 14, 15, 16, 17, 18]
    rfl rfl rfl rfl rfl rfl (by decide) (by decide)).mpr (by decide)

/-- Claim C9: when the entropy, setup, erase-and-program and read-back
calls of `flash_ctrl_secret_write` all succeed but the final check fails
(a drawn word is `0` or all-ones, or a read-back word differs), the call
returns `INTERNAL()` while its trace already contains the erase-and-program
of the drawn words, and no further flash operation follows the read: no
rollback is performed on this error path. -/
theorem flash_secret_write_no_rollback (env : FlashWriteEnv)
    (p b pt len addr : Nat) (seed res : List Nat)
    (h1 : env.instantiateRes = Except.ok ())
    (h2 : env.generateRes = Except.ok seed)
    (h3 : env.uninstantiateRes = Except.ok ())
    (h4 : env.setupRes = Except.ok addr)
    (h5 : env.eraseWriteRes = Except.ok ())
    (h6 : env.readRes = Except.ok res)
    (hbad : ∃ i ∈ List.range len,
      seed.getD i 0 = 0 ∨ seed.getD i 0 = UINT32_MAX ∨
      seed.getD i 0 ≠ res.getD i 0) :
    flash_ctrl_secret_write env p b pt len =
      ([Event.csrngInstantiate, Event.csrngGenerate len,
        Event.csrngUninstantiate, Event.flashSetup p b pt,
        Event.flashEraseWrite seed, Event.flashRead len],
       Except.error Err.internal) ∧
    Event.flashEraseWrite seed ∈ (flash_ctrl_secret_write env p b pt len).1 := by
  have hany : ((List.range len).any (fun i =>
      (seed.getD i 0 == 0) || (seed.getD i 0 == UINT32_MAX) ||
      (seed.getD i 0 != res.getD i 0))) = true := by
    simp only [List.any_eq_true, Bool.or_eq_true, beq_iff_eq, bne_iff_ne]
    obtain ⟨i, hi, h⟩ := hbad
    exact ⟨i, hi, by tauto⟩
  have heq : flash_ctrl_secret_write env p b pt len =
      ([Event.csrngInstantiate, Event.csrngGenerate len,
        Event.csrngUninstantiate, Event.flashSetup p b pt,
        Event.flashEraseWrite seed, Event.flashRead len],
       Except.error Err.internal) := by
    unfold flash_ctrl_secret_write
    rw [h1, h2, h3, h4, h5, h6]
    simp only [runStep, hany]
    rfl
  exact ⟨heq, by rw [heq]; simp⟩

/-- Claim C9 witness: a concrete run whose first drawn word is `0`; the
flash page has been programmed with the drawn words and the call fails. -/
theorem flash_secret_write_no_rollback_witness :
    flash_ctrl_secret_write flashEnvBad kFlashInfoPageIdCreatorSecret
      kFlashInfoBankId kFlashInfoPartitionId kCreatorSeedSizeInWords =
      ([Event.csrngInstantiate, Event.csrngGenerate kCreatorSeedSizeInWords,
        Event.csrngUninstantiate,
        Event.flashSetup kFlashInfoPageIdCreatorSecret kFlashInfoBankId
          kFlashInfoPartitionId,
        Event.flashEraseWrite [0, 12, 13, 14, 15, 16, 17, 18],
        Event.flashRead kCreatorSeedSizeInWords],
       Except.error Err.internal) ∧
    Event.flashEraseWrite [0, 12, 13, 14, 15, 16, 17, 18] ∈
      (flash_ctrl_secret_write flashEnvBad kFlashInfoPageIdCreatorSecret
        kFlashInfoBankId kFlashInfoPartitionId kCreatorSeedSizeInWords).1 :=
  flash_secret_write_no_rollback flashEnvBad kFlashInfoPageIdCreatorSecret
    kFlashInfoBankId kFlashInfoPartitionId kCreatorSeedSizeInWords 0
    [0, 12, 13, 14, 15, 16, 17, 18] [0, 12, 13, 14, 15, 16, 17, 18]
    rfl rfl rfl rfl rfl rfl ⟨0, by decide, by decide⟩

/-- Claim C5: when the lifecycle check passes and the lock query reports
the SECRET2 partition already locked, `provisioning_device_secrets_start`
returns success with a trace holding only the lifecycle check and the lock
query: no entropy initialization, no entropy draw, and no flash or OTP
write is performed. -/
theorem start_skips_when_locked (env : StartEnv)
    (h1 : env.lcCheckRes = Except.ok ())
    (h2 : env.isLockedRes = Except.ok true) :
    provisioning_device_secrets_start env =
      ([Event.lcCheck, Event.otpLockQuery], Except.ok ()) ∧
    Event.entropyComplexInit ∉ (provisioning_device_secrets_start env).1 ∧
    (∀ n, Event.csrngGenerate n ∉ (provisioning_device_secrets_start env).1) ∧
    (∀ w, Event.flashEraseWrite w ∉ (provisioning_device_secrets_start env).1) ∧
    (∀ j w, Event.otpWrite64 j w ∉ (provisioning_device_secrets_start env).1) ∧
    Event.otpLock ∉ (provisioning_device_secrets_start env).1 := by
  have heq : provisioning_device_secrets_start env =
      ([Event.lcCheck, Event.otpLockQuery], Except.ok ()) := by
    unfold provisioning_device_secrets_start otp_partition_secret2_is_locked
    rw [h1, h2]
    simp [runStep, bindTrace]
  refine ⟨heq, ?_, ?_, ?_, ?_, ?_⟩ <;> rw [heq] <;> simp

/-- Claim C5 witness: a concrete already-locked device. -/
theorem start_skips_when_locked_witness :
    provisioning_device_secrets_start startEnvLocked =
      ([Event.lcCheck, Event.otpLockQuery], Except.ok ()) :=
  (start_skips_when_locked startEnvLocked rfl rfl).1

/-- Claim C6: when the lifecycle check fails with error `e`,
`provisioning_device_secrets_start` fails with that same error and its
trace holds only the lifecycle check: no entropy draw and no flash or OTP
write is performed. -/
theorem start_fails_on_ineligible_lifecycle (env : StartEnv) (e : Err)
    (h : env.lcCheckRes = Except.error e) :
    provisioning_device_secrets_start env =
      ([Event.lcCheck], Except.error e) ∧
    Event.entropyComplexInit ∉ (provisioning_device_secrets_start env).1 ∧
    (∀ n, Event.csrngGenerate n ∉ (provisioning_device_secrets_start env).1) ∧
    (∀ w, Event.flashEraseWrite w ∉ (provisioning_device_secrets_start env).1) ∧
    (∀ j w, Event.otpWrite64 j w ∉ (provisioning_device_secrets_start env).1) ∧
    Event.otpLock ∉ (provisioning_device_secrets_start env).1 := by
  have heq : provisioning_device_secrets_start env =
      ([Event.lcCheck], Except.error e) := by
    unfold provisioning_device_secrets_start
    rw [h]
    simp [runStep]
  refine ⟨heq, ?_, ?_, ?_, ?_, ?_⟩ <;> rw [heq] <;> simp

/-- Claim C6 witness: a concrete ineligible device. -/
theorem start_fails_on_ineligible_lifecycle_witness :
    provisioning_device_secrets_start startEnvLcFail =
      ([Event.lcCheck], Except.error (Err.external 7)) :=
  (start_fails_on_ineligible_lifecycle startEnvLcFail (Err.external 7) rfl).1

/-- Claim C7: `provisioning_device_secrets_end` returns success iff the
lock query returns `true`; a query error is surfaced as that same error,
not treated as not-locked. -/
theorem end_ok_iff_locked (q : Except Err Bool) :
    ((provisioning_device_secrets_end q).2 = Except.ok () ↔
      q = Except.ok true) ∧
    (∀ e, q = Except.error e →
      (provisioning_device_secrets_end q).2 = Except.error e) := by
  unfold provisioning_device_secrets_end otp_partition_secret2_is_locked
  rcases q with e | b
  · refine ⟨by simp [runStep, bindTrace], ?_⟩
    intro e2 he
    simp only [runStep, bindTrace]
    exact congrArg Except.error (Except.error.inj he).symm ▸ rfl
  · rcases b
    · exact ⟨by simp [runStep, bindTrace], fun e2 he => by simp at he⟩
    · exact ⟨by simp [runStep, bindTrace], fun e2 he => by simp at he⟩

/-- Claim C7 witness: a concrete query error is surfaced unchanged, and a
concrete locked device yields success. -/
theorem end_ok_iff_locked_witness :
    (provisioning_device_secrets_end (Except.error (Err.external 3))).2 =
      Except.error (Err.external 3) ∧
    (provisioning_device_secrets_end (Except.ok true)).2 = Except.ok () :=
  ⟨(end_ok_iff_locked (Except.error (Err.external 3))).2 (Err.external 3) rfl,
   (end_ok_iff_locked (Except.ok true)).1.mpr rfl⟩

lemma configure_all_ok_eq (env : ConfigureEnv) (s0 s1 : List Nat)
    (h1 : env.instantiateRes = Except.ok ())
    (h2 : env.generate0Res = Except.ok s0)
    (h3 : env.reseedRes = Except.ok ())
    (h4 : env.generate1Res = Except.ok s1)
    (h5 : env.uninstantiateRes = Except.ok ())
    (hsc : shares_check s0 s1 kRootKeyShareSizeIn64BitWords = Except.ok ())
    (h6 : env.write0Res = Except.ok ())
    (h7 : env.write1Res = Except.ok ())
    (h8 : env.lockRes = Except.ok ()) :
    otp_partition_secret2_configure env =
      ([Event.csrngInstantiate,
        Event.csrngGenerate kRootKeyShareSizeIn32BitWords,
        Event.csrngReseed,
        Event.csrngGenerate kRootKeyShareSizeIn32BitWords,
        Event.csrngUninstantiate,
        Event.otpWrite64 0 s0, Event.otpWrite64 1 s1, Event.otpLock],
       Except.ok ()) := by
  unfold otp_partition_secret2_configure
  rw [h1, h2, h3, h4, h5, h6, h7, h8]
  simp only [runStep]
  rw [hsc]

lemma configure_lock_fail_eq (env : ConfigureEnv) (s0 s1 : List Nat) (e : Err)
    (h1 : env.instantiateRes = Except.ok ())
    (h2 : env.generate0Res = Except.ok s0)
    (h3 : env.reseedRes = Except.ok ())
    (h4 : env.generate1Res = Except.ok s1)
    (h5 : env.uninstantiateRes = Except.ok ())
    (hsc : shares_check s0 s1 kRootKeyShareSizeIn64BitWords = Except.ok ())
    (h6 : env.write0Res = Except.ok ())
    (h7 : env.write1Res = Except.ok ())
    (h8 : env.lockRes = Except.error e) :
    otp_partition_secret2_configure env =
      ([Event.csrngInstantiate,
        Event.csrngGenerate kRootKeyShareSizeIn32BitWords,
        Event.csrngReseed,
        Event.csrngGenerate kRootKeyShareSizeIn32BitWords,
        Event.csrngUninstantiate,
        Event.otpWrite64 0 s0, Event.otpWrite64 1 s1, Event.otpLock],
       Except.error e) := by
  unfold otp_partition_secret2_configure
  rw [h1, h2, h3, h4, h5, h6, h7, h8]
  simp only [runStep]
  rw [hsc]

lemma configure_shares_fail_eq (env : ConfigureEnv) (s0 s1 : List Nat)
    (h1 : env.instantiateRes = Except.ok ())
    (h2 : env.generate0Res = Except.ok s0)
    (h3 : env.reseedRes = Except.ok ())
    (h4 : env.generate1Res = Except.ok s1)
    (h5 : env.uninstantiateRes = Except.ok ())
    (hsc : shares_check s0 s1 kRootKeyShareSizeIn64BitWords =
      Except.error Err.internal) :
    otp_partition_secret2_configure env =
      ([Event.csrngInstantiate,
        Event.csrngGenerate kRootKeyShareSizeIn32BitWords,
        Event.csrngReseed,
        Event.csrngGenerate kRootKeyShareSizeIn32BitWords,
        Event.csrngUninstantiate],
       Except.error Err.internal) := by
  unfold otp_partition_secret2_configure
  rw [h1, h2, h3, h4, h5]
  simp only [runStep]
  rw [hsc]

lemma shares_check_cases (s0 s1 : List Nat) (len : Nat) :
    shares_check s0 s1 len = Except.ok () ∨
    shares_check s0 s1 len = Except.error Err.internal := by
  unfold shares_check
  split
  · exact Or.inr rfl
  · exact Or.inl rfl


lemma configure_write0_fail_eq (env : ConfigureEnv) (s0 s1 : List Nat) (e : Err)
    (h1 : env.instantiateRes = Except.ok ())
    (h2 : env.generate0Res = Except.ok s0)
    (h3 : env.reseedRes = Except.ok ())
    (h4 : env.generate1Res = Except.ok s1)
    (h5 : env.uninstantiateRes = Except.ok ())
    (hsc : shares_check s0 s1 kRootKeyShareSizeIn64BitWords = Except.ok ())
    (h6 : env.write0Res = Except.error e) :
    otp_partition_secret2_configure env =
      ([Event.csrngInstantiate,
        Event.csrngGenerate kRootKeyShareSizeIn32BitWords,
        Event.csrngReseed,
        Event.csrngGenerate kRootKeyShareSizeIn32BitWords,
        Event.csrngUninstantiate, Event.otpWrite64 0 s0],
       Except.error e) := by
  unfold otp_partition_secret2_configure
  rw [h1, h2, h3, h4, h5, h6]
  simp only [runStep]
  rw [hsc]

lemma configure_write1_fail_eq (env : ConfigureEnv) (s0 s1 : List Nat) (e : Err)
    (h1 : env.instantiateRes = Except.ok ())
    (h2 : env.generate0Res = Except.ok s0)
    (h3 : env.reseedRes = Except.ok ())
    (h4 : env.generate1Res = Except.ok s1)
    (h5 : env.uninstantiateRes = Except.ok ())
    (hsc : shares_check s0 s1 kRootKeyShareSizeIn64BitWords = Except.ok ())
    (h6 : env.write0Res = Except.ok ())
    (h7 : env.write1Res = Except.error e) :
    otp_partition_secret2_configure env =
      ([Event.csrngInstantiate,
        Event.csrngGenerate kRootKeyShareSizeIn32BitWords,
        Event.csrngReseed,
        Event.csrngGenerate kRootKeyShareSizeIn32BitWords,
        Event.csrngUninstantiate, Event.otpWrite64 0 s0,
        Event.otpWrite64 1 s1],
       Except.error e) := by
  unfold otp_partition_secret2_configure
  rw [h1, h2, h3, h4, h5, h6, h7]
  simp only [runStep]
  rw [hsc]

lemma configure_cases (env : ConfigureEnv) :
    (∃ e, otp_partition_secret2_configure env =
      ([Event.csrngInstantiate], Except.error e)) ∨
    (∃ e, otp_partition_secret2_configure env =
      ([Event.csrngInstantiate,
        Event.csrngGenerate kRootKeyShareSizeIn32BitWords],
       Except.error e)) ∨
    (∃ e, otp_partition_secret2_configure env =
      ([Event.csrngInstantiate,
        Event.csrngGenerate kRootKeyShareSizeIn32BitWords,
        Event.csrngReseed],
       Except.error e)) ∨
    (∃ e, otp_partition_secret2_configure env =
      ([Event.csrngInstantiate,
        Event.csrngGenerate kRootKeyShareSizeIn32BitWords,
        Event.csrngReseed,
        Event.csrngGenerate kRootKeyShareSizeIn32BitWords],
       Except.error e)) ∨
    (∃ e, otp_partition_secret2_configure env =
      ([Event.csrngInstantiate,
        Event.csrngGenerate kRootKeyShareSizeIn32BitWords,
        Event.csrngReseed,
        Event.csrngGenerate kRootKeyShareSizeIn32BitWords,
        Event.csrngUninstantiate],
       Except.error e)) ∨
    (∃ s0 s1, env.generate0Res = Except.ok s0 ∧
      env.generate1Res = Except.ok s1 ∧
      shares_check s0 s1 kRootKeyShareSizeIn64BitWords =
        Except.error Err.internal ∧
      otp_partition_secret2_configure env =
      ([Event.csrngInstantiate,
        Event.csrngGenerate kRootKeyShareSizeIn32BitWords,
        Event.csrngReseed,
        Event.csrngGenerate kRootKeyShareSizeIn32BitWords,
        Event.csrngUninstantiate],
       Except.error Err.internal)) ∨
    (∃ s0 s1 e, env.generate0Res = Except.ok s0 ∧
      env.generate1Res = Except.ok s1 ∧
      shares_check s0 s1 kRootKeyShareSizeIn64BitWords = Except.ok () ∧
      env.write0Res = Except.error e ∧
      otp_partition_secret2_configure env =
      ([Event.csrngInstantiate,
        Event.csrngGenerate kRootKeyShareSizeIn32BitWords,
        Event.csrngReseed,
        Event.csrngGenerate kRootKeyShareSizeIn32BitWords,
        Event.csrngUninstantiate, Event.otpWrite64 0 s0],
       Except.error e)) ∨
    (∃ s0 s1 e, env.generate0Res = Except.ok s0 ∧
      env.generate1Res = Except.ok s1 ∧
      shares_check s0 s1 kRootKeyShareSizeIn64BitWords = Except.ok () ∧
      env.write0Res = Except.ok () ∧ env.write1Res = Except.error e ∧
      otp_partition_secret2_configure env =
      ([Event.csrngInstantiate,
        Event.csrngGenerate kRootKeyShareSizeIn32BitWords,
        Event.csrngReseed,
        Event.csrngGenerate kRootKeyShareSizeIn32BitWords,
        Event.csrngUninstantiate, Event.otpWrite64 0 s0,
        Event.otpWrite64 1 s1],
       Except.error e)) ∨
    (∃ s0 s1 e, env.generate0Res = Except.ok s0 ∧
      env.generate1Res = Except.ok s1 ∧
      shares_check s0 s1 kRootKeyShareSizeIn64BitWords = Except.ok () ∧
      env.write0Res = Except.ok () ∧ env.write1Res = Except.ok () ∧
      env.lockRes = Except.error e ∧
      otp_partition_secret2_configure env =
      ([Event.csrngInstantiate,
        Event.csrngGenerate kRootKeyShareSizeIn32BitWords,
        Event.csrngReseed,
        Event.csrngGenerate kRootKeyShareSizeIn32BitWords,
        Event.csrngUninstantiate, Event.otpWrite64 0 s0,
        Event.otpWrite64 1 s1, Event.otpLock],
       Except.error e)) ∨
    (∃ s0 s1, env.generate0Res = Except.ok s0 ∧
      env.generate1Res = Except.ok s1 ∧
      shares_check s0 s1 kRootKeyShareSizeIn64BitWords = Except.ok () ∧
      env.write0Res = Except.ok () ∧ env.write1Res = Except.ok () ∧
      env.lockRes = Except.ok () ∧
      otp_partition_secret2_configure env =
      ([Event.csrngInstantiate,
        Event.csrngGenerate kRootKeyShareSizeIn32BitWords,
        Event.csrngReseed,
        Event.csrngGenerate kRootKeyShareSizeIn32BitWords,
        Event.csrngUninstantiate, Event.otpWrite64 0 s0,
        Event.otpWrite64 1 s1, Event.otpLock],
       Except.ok ())) := by
  rcases h1 : env.instantiateRes with e | ⟨⟩
  · refine Or.inl ⟨e, ?_⟩
    unfold otp_partition_secret2_configure
    rw [h1]
    simp only [runStep]
  rcases h2 : env.generate0Res with e | s0
  · refine Or.inr (Or.inl ⟨e, ?_⟩)
    unfold otp_partition_secret2_configure
    rw [h1, h2]
    simp only [runStep]
  rcases h3 : env.reseedRes with e | ⟨⟩
  · refine Or.inr (Or.inr (Or.inl ⟨e, ?_⟩))
    unfold otp_partition_secret2_configure
    rw [h1, h2, h3]
    simp only [runStep]
  rcases h4 : env.generate1Res with e | s1
  · refine Or.inr (Or.inr (Or.inr (Or.inl ⟨e, ?_⟩)))
    unfold otp_partition_secret2_configure
    rw [h1, h2, h3, h4]
    simp only [runStep]
  rcases h5 : env.uninstantiateRes with e | ⟨⟩
  · refine Or.inr (Or.inr (Or.inr (Or.inr (Or.inl ⟨e, ?_⟩))))
    unfold otp_partition_secret2_configure
    rw [h1, h2, h3, h4, h5]
    simp only [runStep]
  rcases shares_check_cases s0 s1 kRootKeyShareSizeIn64BitWords with hsc | hsc
  · rcases h6 : env.write0Res with e | ⟨⟩
    · exact Or.inr (Or.inr (Or.inr (Or.inr (Or.inr (Or.inr (Or.inl
        ⟨s0, s1, e, rfl, rfl, hsc, rfl,
         configure_write0_fail_eq env s0 s1 e h1 h2 h3 h4 h5 hsc h6⟩))))))
    rcases h7 : env.write1Res with e | ⟨⟩
    · exact Or.inr (Or.inr (Or.inr (Or.inr (Or.inr (Or.inr (Or.inr (Or.inl
        ⟨s0, s1, e, rfl, rfl, hsc, rfl, rfl,
         configure_write1_fail_eq env s0 s1 e h1 h2 h3 h4 h5 hsc h6 h7⟩)))))))
    rcases h8 : env.lockRes with e | ⟨⟩
    · exact Or.inr (Or.inr (Or.inr (Or.inr (Or.inr (Or.inr (Or.inr (Or.inr
        (Or.inl ⟨s0, s1, e, rfl, rfl, hsc, rfl, rfl, rfl,
         configure_lock_fail_eq env s0 s1 e h1 h2 h3 h4 h5 hsc h6 h7 h8⟩))))))))
    · exact Or.inr (Or.inr (Or.inr (Or.inr (Or.inr (Or.inr (Or.inr (Or.inr
        (Or.inr ⟨s0, s1, rfl, rfl, hsc, rfl, rfl, rfl,
         configure_all_ok_eq env s0 s1 h1 h2 h3 h4 h5 hsc h6 h7 h8⟩))))))))
  · exact Or.inr (Or.inr (Or.inr (Or.inr (Or.inr (Or.inl
      ⟨s0, s1, rfl, rfl, hsc,
       configure_shares_fail_eq env s0 s1 h1 h2 h3 h4 h5 hsc⟩)))))

/-- Claim C4: in every run of `otp_partition_secret2_configure`, the lock
call appears in the trace only if both share writes and the share
validation (run twice on the same buffers, hence with the same result)
succeeded, with both share writes present in the trace; on a successful run
the lock is the last operation performed; and when the entropy steps
succeed but the first validation fails, the run stops with `INTERNAL()`
right after the entropy teardown — no OTP write occurs at all. -/
theorem configure_lock_discipline (env : ConfigureEnv) :
    (Event.otpLock ∈ (otp_partition_secret2_configure env).1 →
      ∃ s0 s1, env.generate0Res = Except.ok s0 ∧
        env.generate1Res = Except.ok s1 ∧
        shares_check s0 s1 kRootKeyShareSizeIn64BitWords = Except.ok () ∧
        env.write0Res = Except.ok () ∧ env.write1Res = Except.ok () ∧
        Event.otpWrite64 0 s0 ∈ (otp_partition_secret2_configure env).1 ∧
        Event.otpWrite64 1 s1 ∈ (otp_partition_secret2_configure env).1) ∧
    ((otp_partition_secret2_configure env).2 = Except.ok () →
      ∃ tr, (otp_partition_secret2_configure env).1 =
        tr ++ [Event.otpLock]) ∧
    (∀ s0 s1, env.instantiateRes = Except.ok () →
      env.generate0Res = Except.ok s0 →
      env.reseedRes = Except.ok () →
      env.generate1Res = Except.ok s1 →
      env.uninstantiateRes = Except.ok () →
      shares_check s0 s1 kRootKeyShareSizeIn64BitWords =
        Except.error Err.internal →
      otp_partition_secret2_configure env =
        ([Event.csrngInstantiate,
          Event.csrngGenerate kRootKeyShareSizeIn32BitWords,
          Event.csrngReseed,
          Event.csrngGenerate kRootKeyShareSizeIn32BitWords,
          Event.csrngUninstantiate],
         Except.error Err.internal)) := by
  refine ⟨?_, ?_, ?_⟩
  · intro h
    rcases configure_cases env with ⟨e, heq⟩ | ⟨e, heq⟩ | ⟨e, heq⟩ |
      ⟨e, heq⟩ | ⟨e, heq⟩ | ⟨s0, s1, hg0, hg1, hsc, heq⟩ |
      ⟨s0, s1, e, hg0, hg1, hsc, h6, heq⟩ |
      ⟨s0, s1, e, hg0, hg1, hsc, h6, h7, heq⟩ |
      ⟨s0, s1, e, hg0, hg1, hsc, h6, h7, h8, heq⟩ |
      ⟨s0, s1, hg0, hg1, hsc, h6, h7, h8, heq⟩
    · rw [heq] at h; simp at h
    · rw [heq] at h; simp at h
    · rw [heq] at h; simp at h
    · rw [heq] at h; simp at h
    · rw [heq] at h; simp at h
    · rw [heq] at h; simp at h
    · rw [heq] at h; simp at h
    · rw [heq] at h; simp at h
    · exact ⟨s0, s1, hg0, hg1, hsc, h6, h7,
        by rw [heq]; simp, by rw [heq]; simp⟩
    · exact ⟨s0, s1, hg0, hg1, hsc, h6, h7,
        by rw [heq]; simp, by rw [heq]; simp⟩
  · intro h
    rcases configure_cases env with ⟨e, heq⟩ | ⟨e, heq⟩ | ⟨e, heq⟩ |
      ⟨e, heq⟩ | ⟨e, heq⟩ | ⟨s0, s1, hg0, hg1, hsc, heq⟩ |
      ⟨s0, s1, e, hg0, hg1, hsc, h6, heq⟩ |
      ⟨s0, s1, e, hg0, hg1, hsc, h6, h7, heq⟩ |
      ⟨s0, s1, e, hg0, hg1, hsc, h6, h7, h8, heq⟩ |
      ⟨s0, s1, hg0, hg1, hsc, h6, h7, h8, heq⟩
    · rw [heq] at h; simp at h
    · rw [heq] at h; simp at h
    · rw [heq] at h; simp at h
    · rw [heq] at h; simp at h
    · rw [heq] at h; simp at h
    · rw [heq] at h; simp at h
    · rw [heq] at h; simp at h
    · rw [heq] at h; simp at h
    · rw [heq] at h; simp at h
    · refine ⟨[Event.csrngInstantiate,
        Event.csrngGenerate kRootKeyShareSizeIn32BitWords,
        Event.csrngReseed,
        Event.csrngGenerate kRootKeyShareSizeIn32BitWords,
        Event.csrngUninstantiate, Event.otpWrite64 0 s0,
        Event.otpWrite64 1 s1], ?_⟩
      rw [heq]
      rfl
  · intro s0 s1 h1 h2 h3 h4 h5 hsc
    exact configure_shares_fail_eq env s0 s1 h1 h2 h3 h4 h5 hsc

/-- Claim C4 witness: on a concrete all-successful run the lock is last and
preceded by successful writes and validation; on a concrete run with equal
shares the trace stops at the entropy teardown with no OTP write. -/
theorem configure_lock_discipline_witness :
    (∃ s0 s1, cfgEnvGood.generate0Res = Except.ok s0 ∧
      cfgEnvGood.generate1Res = Except.ok s1 ∧
      shares_check s0 s1 kRootKeyShareSizeIn64BitWords = Except.ok () ∧
      cfgEnvGood.write0Res = Except.ok () ∧
      cfgEnvGood.write1Res = Except.ok () ∧
      Event.otpWrite64 0 s0 ∈ (otp_partition_secret2_configure cfgEnvGood).1 ∧
      Event.otpWrite64 1 s1 ∈
        (otp_partition_secret2_configure cfgEnvGood).1) ∧
    (∃ tr, (otp_partition_secret2_configure cfgEnvGood).1 =
      tr ++ [Event.otpLock]) ∧
    otp_partition_secret2_configure cfgEnvBad =
      ([Event.csrngInstantiate,
        Event.csrngGenerate kRootKeyShareSizeIn32BitWords,
        Event.csrngReseed,
        Event.csrngGenerate kRootKeyShareSizeIn32BitWords,
        Event.csrngUninstantiate],
       Except.error Err.internal) :=
  ⟨(configure_lock_discipline cfgEnvGood).1 (by decide),
   (configure_lock_discipline cfgEnvGood).2.1 rfl,
   (configure_lock_discipline cfgEnvBad).2.2 [1, 2, 3, 4] [1, 2, 3, 4]
     rfl rfl rfl rfl rfl rfl⟩

/-- Claim C8: when its five entropy calls succeed,
`otp_partition_secret2_configure` performs exactly one instantiate, the
share-0 draw, one reseed of the same instance (no second instantiate), the
share-1 draw, and exactly one uninstantiate after both draws — in this
order and with no other entropy operation, whatever the later OTP steps
do. -/
theorem configure_entropy_order (env : ConfigureEnv) (s0 s1 : List Nat)
    (h1 : env.instantiateRes = Except.ok ())
    (h2 : env.generate0Res = Except.ok s0)
    (h3 : env.reseedRes = Except.ok ())
    (h4 : env.generate1Res = Except.ok s1)
    (h5 : env.uninstantiateRes = Except.ok ()) :
    ((otp_partition_secret2_configure env).1).filter entropyEvent =
      [Event.csrngInstantiate,
       Event.csrngGenerate kRootKeyShareSizeIn32BitWords,
       Event.csrngReseed,
       Event.csrngGenerate kRootKeyShareSizeIn32BitWords,
       Event.csrngUninstantiate] := by
  rcases shares_check_cases s0 s1 kRootKeyShareSizeIn64BitWords with hsc | hsc
  · rcases h6 : env.write0Res with e | ⟨⟩
    · rw [configure_write0_fail_eq env s0 s1 e h1 h2 h3 h4 h5 hsc h6]
      rfl
    · rcases h7 : env.write1Res with e | ⟨⟩
      · rw [configure_write1_fail_eq env s0 s1 e h1 h2 h3 h4 h5 hsc h6 h7]
        rfl
      · rcases h8 : env.lockRes with e | ⟨⟩
        · rw [configure_lock_fail_eq env s0 s1 e h1 h2 h3 h4 h5 hsc h6 h7 h8]
          rfl
        · rw [configure_all_ok_eq env s0 s1 h1 h2 h3 h4 h5 hsc h6 h7 h8]
          rfl
  · rw [configure_shares_fail_eq env s0 s1 h1 h2 h3 h4 h5 hsc]
    rfl

/-- Claim C8 witness: the entropy call order on a concrete run. -/
theorem configure_entropy_order_witness :
    ((otp_partition_secret2_configure cfgEnvGood).1).filter entropyEvent =
      [Event.csrngInstantiate,
       Event.csrngGenerate kRootKeyShareSizeIn32BitWords,
       Event.csrngReseed,
       Event.csrngGenerate kRootKeyShareSizeIn32BitWords,
       Event.csrngUninstantiate] :=
  configure_entropy_order cfgEnvGood [1, 2, 3, 4] [5, 6, 7, 8]
    rfl rfl rfl rfl rfl

/-- Claim C10: the local `seed` and `seed_result` buffers of
`flash_ctrl_secret_write` have the fixed capacity
`kCreatorSeedSizeInWords = 8` regardless of the `len` parameter; every
index the function accesses (exactly those below `len`) is in bounds iff
`len ≤ kCreatorSeedSizeInWords`; and both in-module callers pass exactly
`kCreatorSeedSizeInWords` (the owner seed size equals the creator seed
size), which satisfies that precondition. -/
theorem flash_secret_write_buffer_bounds :
    (∀ len, indicesInBounds len kCreatorSeedSizeInWords ↔
      len ≤ kCreatorSeedSizeInWords) ∧
    kCreatorSeedSizeInWords = 8 ∧
    kOwnerSeedSizeInWords = kCreatorSeedSizeInWords ∧
    indicesInBounds kCreatorSeedSizeInWords kCreatorSeedSizeInWords ∧
    indicesInBounds kOwnerSeedSizeInWords kCreatorSeedSizeInWords := by
  refine ⟨fun len => ⟨?_, ?_⟩, rfl, rfl, fun i hi => hi, fun i hi => hi⟩
  · intro h
    by_contra hlt
    push_neg at hlt
    exact absurd (h kCreatorSeedSizeInWords hlt) (lt_irrefl _)
  · intro h i hi
    exact lt_of_lt_of_le hi h

/-- Claim C10 witness: the callers' word count 8 is in bounds and 9 would
not be. -/
theorem flash_secret_write_buffer_bounds_witness :
    indicesInBounds 8 kCreatorSeedSizeInWords ∧
    ¬ indicesInBounds 9 kCreatorSeedSizeInWords :=
  ⟨(flash_secret_write_buffer_bounds.1 8).mpr (by decide),
   fun h => absurd ((flash_secret_write_buffer_bounds.1 9).mp h) (by decide)⟩
